import Mathlib

/-!
Verification of the itunes-to-jellyfin converter (`itxml2pl`).

This file shallowly embeds the core of `src/itxml2pl/src/itxml2pl`
(`lib/sanitizers.py`, `lib/parsers.py`, `__main__.py`) in Lean and proves
the stated properties of the conversion.

Python strings are modelled by Lean `String`; the few Python string
operations the code uses (`replace`, `split`, `join`, `lower`, `strip`,
`in`, `[:-1]`, `int(...)`) are given explicit structural definitions
(`pyReplace`, `pySplit`, ...) so every definition in this file evaluates
by kernel reduction.  A Python run-time exception (TypeError, IndexError,
KeyError, ValueError, RecursionError) is modelled as `none` in an
`Option`-typed result; a deliberately `raise`d `FileNotFoundError` is
modelled as `Except.error`.  The filesystem is a pair of oracles
(`pathExists`, `listdir`), mirroring the only two filesystem queries the
code performs.
-/

namespace ItXml2Pl

/-! ## Python string primitives -/

/-- Python `str.lower()` (ASCII case folding, which is all the code relies on). -/
def pyLower (s : String) : String := String.mk (s.data.map Char.toLower)

/-- Boolean list-prefix test, structural recursion. -/
def listStartsWith : List Char → List Char → Bool
  | [], _ => true
  | _ :: _, [] => false
  | a :: as, b :: bs => if a = b then listStartsWith as bs else false

/-- Boolean "needle occurs in haystack" over char lists. -/
def listContainsSub (needle : List Char) : List Char → Bool
  | [] => listStartsWith needle []
  | c :: rest => if listStartsWith needle (c :: rest) then true else listContainsSub needle rest

/-- Python `needle in hay` for strings (substring containment). -/
def pyIn (needle hay : String) : Bool := listContainsSub needle.data hay.data

/-- Fuel-driven worker for `pyReplace`; fuel bounds the number of steps so the
recursion is structural (Python's `str.replace` always terminates since every
step consumes at least one character). -/
def replaceFuel (pat rep : List Char) : Nat → List Char → List Char
  | 0, s => s
  | _ + 1, [] => []
  | fuel + 1, c :: rest =>
    if pat ≠ [] ∧ listStartsWith pat (c :: rest) then
      rep ++ replaceFuel pat rep fuel ((c :: rest).drop pat.length)
    else
      c :: replaceFuel pat rep fuel rest

/-- Python `s.replace(pat, rep)`: replace every (left-to-right, non-overlapping)
occurrence of `pat` in `s` by `rep`. -/
def pyReplace (s pat rep : String) : String :=
  String.mk (replaceFuel pat.data rep.data s.data.length s.data)

/-- Fuel-driven worker for `pySplit`; `acc` holds the current segment reversed. -/
def splitFuel (sep : List Char) : Nat → List Char → List Char → List String
  | 0, acc, s => [String.mk (acc.reverse ++ s)]
  | _ + 1, acc, [] => [String.mk acc.reverse]
  | fuel + 1, acc, c :: rest =>
    if sep ≠ [] ∧ listStartsWith sep (c :: rest) then
      String.mk acc.reverse :: splitFuel sep fuel [] ((c :: rest).drop sep.length)
    else
      splitFuel sep fuel (c :: acc) rest

/-- Python `s.split(sep)` for a non-empty separator (`"".split(sep) = [""]`,
separators at either end produce empty segments). -/
def pySplit (s sep : String) : List String :=
  splitFuel sep.data (s.data.length + 1) [] s.data

/-- Python `sep.join(parts)`. -/
def pyJoin (sep : String) : List String → String
  | [] => ""
  | [x] => x
  | x :: xs => x ++ sep ++ pyJoin sep xs

/-- Python `s.lstrip().rstrip()` (strip whitespace from both ends). -/
def pyStrip (s : String) : String :=
  String.mk (((s.data.dropWhile Char.isWhitespace).reverse.dropWhile
    Char.isWhitespace).reverse)

/-- Python `s[:-1]` (drop the final character; the empty string maps to itself). -/
def pyDropLast1 (s : String) : String := String.mk s.data.dropLast

/-- Accumulate the value of a decimal digit string; `none` if a non-digit occurs. -/
def digitsValAux : Nat → List Char → Option Nat
  | acc, [] => some acc
  | acc, c :: r =>
    if c.isDigit then digitsValAux (acc * 10 + (c.toNat - 48)) r else none

/-- Python `int(s)` on decimal numerals: strip whitespace, optional sign, at
least one digit; `none` models the `ValueError` Python raises otherwise. -/
def pyInt (s : String) : Option Int :=
  match (pyStrip s).data with
  | [] => none
  | '-' :: rest =>
    match rest with
    | [] => none
    | _ :: _ => (digitsValAux 0 rest).map (fun n => -(n : Int))
  | '+' :: rest =>
    match rest with
    | [] => none
    | _ :: _ => (digitsValAux 0 rest).map (fun n => (n : Int))
  | l => (digitsValAux 0 l).map (fun n => (n : Int))

/-! ## `lib/sanitizers.py` -/

/-- The `invalid_chars` list of `sanitize_path`
(`/ \ " ' ? : < > * |`; `\x22` is the double quote, `\x27` the apostrophe). -/
def invalid_chars : List String :=
  ["/", "\\", "\x22", "\x27", "?", ":", "<", ">", "*", "|"]

/-- The character-replacement loop of `sanitize_path`: each invalid character
is replaced by an underscore (`entry.replace(char, "_")`, guarded by
`if char in entry`, folded over `invalid_chars`). -/
def replaceInvalidChars (entry : String) : String :=
  invalid_chars.foldl (fun e c => if pyIn c e then pyReplace e c "_" else e) entry

/-- Embeds `sanitizers.sanitize_path(entry, attribute)` (the `attribute` argument is
called `attrName` here).  After the character replacement, for every attribute
other than `"Name"` the code indexes `entry[-1]` and `entry[0]` to rewrite a
leading/trailing dot; on the empty string `entry[-1]` raises `IndexError`,
modelled as `none`. -/
def sanitize_path (entry attrName : String) : Option String :=
  let e := replaceInvalidChars entry
  if attrName = "Name" then some e
  else
    match e.data with
    | [] => none
    | _ :: _ =>
      let e1 := if e.data.getLast? = some '.' then
        String.mk (e.data.dropLast ++ ['_']) else e
      let e2 := if e1.data.head? = some '.' then
        String.mk ('_' :: e1.data.tail) else e1
      some e2

/-! ## The XML node model

A track or playlist `<dict>` is a flat sequence of children: `<key>` elements
and value elements.  The code reads values with the XPath
`key[text()='A']/following-sibling::string[1]` (resp. `integer[1]`) and takes
the first hit in document order, which is the first `<string>` (`<integer>`)
child after the first `<key>` whose text is `A`.  Key-presence tests
(`key[text()='Compilation']`, `key[text()='Folder']`) only ask whether such a
`<key>` occurs, so other value kinds need no representation. -/

inductive XItem where
  | key : String → XItem
  | str : String → XItem
  | intg : String → XItem
deriving DecidableEq

/-- A `<dict>` node: the ordered list of its children. -/
abbrev Node := List XItem

/-- The suffix of the node after the first `<key>` with text `attr`. -/
def afterKey (attr : String) : Node → Option Node
  | [] => none
  | XItem.key k :: rest => if k = attr then some rest else afterKey attr rest
  | _ :: rest => afterKey attr rest

/-- The first `<string>` child in a node suffix. -/
def firstStr : Node → Option String
  | [] => none
  | XItem.str s :: _ => some s
  | _ :: rest => firstStr rest

/-- The first `<integer>` child in a node suffix (its text, kept as a string,
exactly as the code uses it). -/
def firstIntg : Node → Option String
  | [] => none
  | XItem.intg s :: _ => some s
  | _ :: rest => firstIntg rest

/-- Embeds `el.xpath("key[text()='attr']/following-sibling::string[1]")[0].text`. -/
def lookupStr (node : Node) (attr : String) : Option String :=
  (afterKey attr node).bind firstStr

/-- Embeds `el.xpath("key[text()='attr']/following-sibling::integer[1]")[0].text`. -/
def lookupIntg (node : Node) (attr : String) : Option String :=
  (afterKey attr node).bind firstIntg

/-- Whether the node has a `<key>` child with the given text. -/
def hasKey (node : Node) (attr : String) : Bool :=
  node.any (fun it => match it with | XItem.key k => k = attr | _ => false)

/-! ## `_LibraryEntry.get_str_attr` -/

/-- Embeds `_LibraryEntry.get_str_attr(attr, path_sanitize)`.  On a missing
attribute the code returns `"Unknown Album"` for `Album` and the empty
string otherwise (before any sanitization).  On a present attribute the
value is stripped and, when `path_sanitize` holds, passed through
`sanitize_path`; `none` models the exception that raises on a value that
strips to the empty string. -/
def get_str_attr (node : Node) (attr : String) (path_sanitize : Bool) :
    Option String :=
  match lookupStr node attr with
  | none => if attr = "Album" then some "Unknown Album" else some ""
  | some v =>
    let result := pyStrip v
    if path_sanitize then sanitize_path result attr else some result

/-! ## `lib/parsers.py`: the `Track` class -/

/-- First-match association lookup (the semantics of an XPath query taking
the first hit in document order, and of a Python `dict` with distinct keys). -/
def assocFind (l : List (String × String)) (k : String) : Option String :=
  match l with
  | [] => none
  | kv :: rest => if kv.1 = k then some kv.2 else assocFind rest k

/-- Embeds `FILE_EXT_MAP`: the fixed kind-to-extension table. -/
def FILE_EXT_MAP : List (String × String) :=
  [("MPEG audio file",             ".mp3"),
   ("MPEG-4 video file",           ".m4a"),
   ("MPEG-4 audio file",           ".mp4"),
   ("Purchased MPEG-4 video file", ".m4v"),
   ("AAC audio file",              ".m4a"),
   ("Purchased AAC audio file",    ".m4a"),
   ("Matched AAC audio file",      ".m4a"),
   ("AIFF audio file",             ".aif"),
   ("WAV audio file",              ".wav")]

/-- Embeds `Track._get_track_num`.  The disc part is prepended when a `Disc Count`
integer is present, `int(...)` of it is `> 1` and a `Disc Number` integer is
present; the track part zero-pads a single-digit `Track Number` text and
appends a space.  `none` models the `ValueError` of `int(...)` on a
non-numeral `Disc Count`. -/
def get_track_num (node : Node) : Option String :=
  let base : Option String :=
    match lookupIntg node "Disc Count" with
    | none => some ""
    | some dct =>
      match pyInt dct with
      | none => none
      | some d =>
        if d > 1 then
          match lookupIntg node "Disc Number" with
          | some dn => some (dn ++ "-")
          | none => some ""
        else some ""
  match base with
  | none => none
  | some tn =>
    match lookupIntg node "Track Number" with
    | none => some tn
    | some t =>
      if t.length = 1 then some (tn ++ "0" ++ t ++ " ")
      else some (tn ++ t ++ " ")

/-- Embeds `Track._get_file_ext`.  The outer `Option` models an exception inside
`get_str_attr("Kind")`; the inner `Option` is the Python return value:
`none` is the `None` the code returns (after a warning) on a kind that is not
a key of `FILE_EXT_MAP`. -/
def get_file_ext (node : Node) : Option (Option String) :=
  (get_str_attr node "Kind" true).map (fun file_type => assocFind FILE_EXT_MAP file_type)

/-- The priority list of `Track._get_artist_dir`. -/
def priority_attrs : List String := ["Sort Album Artist", "Album Artist", "Sort Artist"]

/-- The `for attr in priority_attrs` loop of `Track._get_artist_dir`:
`some (some v)` is an early `return v` (with the `"Various Artists"` special
case), `some none` means the loop fell through, `none` an exception in
`get_str_attr`. -/
def artistDirLoop (node : Node) : List String → Option (Option String)
  | [] => some none
  | attr :: rest =>
    match get_str_attr node attr true with
    | none => none
    | some val =>
      if val ≠ "" then
        if val = "Various Artists" then some (some "VARIOUS ARTISTS")
        else some (some val)
      else artistDirLoop node rest

/-- Embeds `Track._get_artist_dir`; `artist` is the already-computed `self.artist`
(`get_str_attr("Artist")`). -/
def get_artist_dir (node : Node) (artist : String) : Option String :=
  if hasKey node "Compilation" then some "Compilations"
  else
    match artistDirLoop node priority_attrs with
    | none => none
    | some (some v) => some v
    | some none => if artist ≠ "" then some artist else some "Unknown Artist"

/-- The attribute record a `Track(song_el)` construction produces. -/
structure TrackV where
  name : String
  artist : String
  album : String
  track_num : String
  artist_dir : String
  file_ext : Option String
deriving DecidableEq

/-- Embeds `Track.__init__`: the fields in their construction order (`name` via
`get_str_attr("Name", False)` then `sanitize_path(-, "Name")`, then `artist`,
`album`, `track_num`, `artist_dir`, `file_ext`); `none` models an exception
raised by any of the steps. -/
def trackOfNode (node : Node) : Option TrackV := do
  let name0 ← get_str_attr node "Name" false
  let name ← sanitize_path name0 "Name"
  let artist ← get_str_attr node "Artist" true
  let album ← get_str_attr node "Album" true
  let track_num ← get_track_num node
  let artist_dir ← get_artist_dir node artist
  let fe ← get_file_ext node
  pure ⟨name, artist, album, track_num, artist_dir, fe⟩

/-! ## The filesystem model and `fuzzy_search` -/

/-- The filesystem as the two oracles the code queries: `os.path.exists` and
`os.listdir`. -/
structure FS where
  pathExists : String → Bool
  listdir : String → List String

/-- The inner `for dir_entry in curr_dir` loop of `fuzzy_search`: starting
from the original `tp_entry`, each directory entry overwrites the candidate
when it equals the segment ignoring case, and then (independently) when
contains mode is on and its lowercased name contains the lowercased segment. -/
def bestDirToAdd (tp_entry : String) (entries : List String) (contains : Bool) :
    String :=
  let lc_tp_entry := pyLower tp_entry
  entries.foldl (fun best dir_entry =>
    let best1 := if pyLower dir_entry = lc_tp_entry then dir_entry else best
    if pyIn lc_tp_entry (pyLower dir_entry) && contains then dir_entry else best1)
    tp_entry

/-- The `for tp_entry in tp_parts` descent of `fuzzy_search`; `none` is the
early `return ""` taken when the path assembled after a segment choice does
not exist. -/
def fuzzyGo (fs : FS) (dir_sep : String) (contains : Bool) :
    List String → String → Option String
  | [], fixed_path => some fixed_path
  | tp_entry :: rest, fixed_path =>
    if fs.pathExists (fixed_path ++ tp_entry) then
      fuzzyGo fs dir_sep contains rest (fixed_path ++ tp_entry ++ dir_sep)
    else
      let best := bestDirToAdd tp_entry (fs.listdir fixed_path) contains
      let fixed' := fixed_path ++ best ++ dir_sep
      if fs.pathExists fixed' then fuzzyGo fs dir_sep contains rest fixed'
      else none

/-- Embeds `parsers.fuzzy_search(track_path, music_dir, dir_sep, contains)`:
strip the music-dir prefix, split into segments, descend, and drop the
trailing separator of the result; the not-found signal is `""`. -/
def fuzzy_search (fs : FS) (track_path music_dir dir_sep : String)
    (contains : Bool) : String :=
  let rel_tp := pyReplace track_path music_dir ""
  let tp_parts := pySplit rel_tp dir_sep
  match fuzzyGo fs dir_sep contains tp_parts music_dir with
  | none => ""
  | some fixed_path => pyDropLast1 fixed_path

/-! ## Playlist folders: `get_pl_folders` and `Playlist._parent_folder` -/

/-- Python `dict` lookup where the dict was built by repeated `update`:
the last binding of a key wins. -/
def pyDictFind (d : List (String × String × String)) (k : String) :
    Option (String × String) :=
  d.foldl (fun acc kv => if kv.1 = k then some kv.2 else acc) none

/-- The failure conditions of the parent-chain walk: a `Parent Persistent ID`
absent from the folder table (Python `KeyError`) and exhaustion of the
recursion budget (Python `RecursionError`). -/
inductive PFErr where
  | dangling : String → PFErr
  | recursionLimit : PFErr
deriving DecidableEq

/-- CPython's default `sys.getrecursionlimit()`, the bound at which the
unguarded recursion of `_parent_folder` raises `RecursionError`. -/
def python_recursion_limit : Nat := 1000

/-- Embeds `Playlist._parent_folder(pl_parent_id, folders_table, path_so_far,
dir_sep)`: recurse up the parent chain, prepending `name + dir_sep` at each
step, until the parent ID is empty.  The `fuel` argument models Python's
recursion limit: the source has no cycle guard, and on a cyclic chain the
interpreter raises `RecursionError` once the limit is reached. -/
def parent_folder (fuel : Nat) (folders_table : List (String × String × String))
    (pl_parent_id path_so_far dir_sep : String) : Except PFErr String :=
  match fuel with
  | 0 => Except.error PFErr.recursionLimit
  | fuel + 1 =>
    if pl_parent_id = "" then Except.ok path_so_far
    else
      match pyDictFind folders_table pl_parent_id with
      | none => Except.error (PFErr.dangling pl_parent_id)
      | some parent_info =>
        parent_folder fuel folders_table parent_info.2
          (parent_info.1 ++ dir_sep ++ path_so_far) dir_sep

/-! ## `__main__.py`: the orchestrator `parse_xml`

A playlist entry is modelled by the fields the `Playlist` wrapper extracts
from its `<dict>`: `name` (`get_str_attr("Name", False)`), `id` and
`parent_id` (persistent IDs), the result of `is_folder()`, and the list of
member track IDs (`array/dict` / `find("integer").text`).  The all-tracks
`<dict>` is an association of track IDs to track nodes, queried by
`lookup_song`'s first-match XPath. -/

structure PL where
  name : String
  id : String
  parent_id : String
  isFolder : Bool
  members : List String
deriving DecidableEq

/-- Embeds `parsers.lookup_song`: resolve a member track ID in the all-tracks dict
(first match in document order); `none` models the `IndexError` on a
dangling ID. -/
def lookup_song (all_tracks : List (String × Node)) (track_id : String) :
    Option Node :=
  match all_tracks with
  | [] => none
  | kv :: rest => if kv.1 = track_id then some kv.2 else lookup_song rest track_id

/-- Embeds `parsers.get_pl_folders`: the folder table, one entry
`(persistent id, (name, parent id))` per folder-flagged playlist, built by
repeated `dict.update` (so a duplicated ID is resolved by `pyDictFind`'s
last-binding-wins lookup). -/
def get_pl_folders (playlists : List PL) : List (String × String × String) :=
  playlists.foldl
    (fun d p => if p.isFolder then d ++ [(p.id, p.name, p.parent_id)] else d) []

/-- The `check_exists` miss policy (CLI option `-c`). -/
inductive Policy where
  | pwarn | perr | pnone
deriving DecidableEq

/-- The resolved configuration `parse_xml` consumes (`music_dir` and
`docker_dir` keep Python's empty-string-is-falsy convention for an absent
`docker_dir`). -/
structure Cfg where
  music_dir : String
  docker_dir : String
  dir_sep : String
  policy : Policy
  xml_output : Bool
  pl_dir : String

/-- Python `set.add`: the collections the code keeps as sets are modelled as
duplicate-free lists in insertion order (only membership and size are ever
observed). -/
def setAdd (l : List String) (x : String) : List String :=
  if x ∈ l then l else l ++ [x]

/-- The mutable state of the member loop: the playlist's output lines, the
per-playlist and global miss sets, the global referenced-track set, and the
incompleteness flag. -/
structure MemberState where
  track_paths : List String
  pl_tracks_not_found : List String
  all_tracks_not_found : List String
  all_tracks_in_pls : List String
  pl_incomplete : Bool
deriving DecidableEq

/-- One iteration of the `for tr_id_el in pl_tracks` loop of `parse_xml`
(`__main__.py` lines 219-279).  `none` models an uncaught exception: a
dangling track ID, an exception in `Track(...)`, or — when the kind is not in
`FILE_EXT_MAP`, so `tr.file_ext` is `None` — the `TypeError` raised by
`... + tr.file_ext` while building `rel_path`.  `Except.error` is the
`FileNotFoundError` the `error` policy raises. -/
def processMember (fs : FS) (cfg : Cfg) (all_tracks : List (String × Node))
    (st : MemberState) (track_id : String) :
    Option (Except String MemberState) :=
  match lookup_song all_tracks track_id with
  | none => none
  | some tr_el =>
    match trackOfNode tr_el with
    | none => none
    | some tr =>
      match tr.file_ext with
      | none => none
      | some ext =>
        let rel_path :=
          pyJoin cfg.dir_sep [tr.artist_dir, tr.album, tr.track_num ++ tr.name]
            ++ ext
        let check_path := cfg.music_dir ++ rel_path
        let path := if cfg.docker_dir ≠ "" then cfg.docker_dir ++ rel_path
          else check_path
        let st := { st with
          all_tracks_in_pls := setAdd st.all_tracks_in_pls check_path }
        if fs.pathExists check_path then
          some (Except.ok { st with
            track_paths := st.track_paths ++ [path ++ "\n"] })
        else
          let corrected_path :=
            fuzzy_search fs check_path cfg.music_dir cfg.dir_sep true
          if fs.pathExists corrected_path then
            some (Except.ok { st with
              track_paths := st.track_paths ++ [corrected_path ++ "\n"] })
          else
            let miss := (if corrected_path = "" then check_path
              else corrected_path) ++ "\n"
            let st := { st with
              pl_tracks_not_found := setAdd st.pl_tracks_not_found miss,
              all_tracks_not_found := setAdd st.all_tracks_not_found miss,
              pl_incomplete := true }
            match cfg.policy with
            | Policy.pwarn => some (Except.ok st)
            | Policy.perr =>
              some (Except.error ("file " ++ path ++ " not found."))
            | Policy.pnone => some (Except.ok { st with
                track_paths := st.track_paths ++ [path ++ "\n"] })

/-- The member loop folded over a playlist's track IDs. -/
def processMembers (fs : FS) (cfg : Cfg) (all_tracks : List (String × Node))
    (st : MemberState) : List String → Option (Except String MemberState)
  | [] => some (Except.ok st)
  | tid :: rest =>
    match processMember fs cfg all_tracks st tid with
    | none => none
    | some (Except.error e) => some (Except.error e)
    | some (Except.ok st') => processMembers fs cfg all_tracks st' rest

/-- The hard-coded list of auto-generated playlists `parse_xml` ignores. -/
def pl_ignores : List String := ["Library", "Downloaded", "Music", "Recently Added"]

/-- The run state threaded through the playlist loop: the filesystem (updated
by the files the run writes), the ordered write log (path and written lines),
the global accumulators, and the running `total_playlists` counter (an `Int`:
the code starts from `len(playlists) - len(pl_ignores)` and decrements, which
can go negative). -/
structure RunState where
  fs : FS
  writes : List (String × List String)
  all_tracks_in_pls : List String
  all_tracks_not_found : List String
  incomplete_playlists : List String
  total_playlists : Int

/-- Record a file write (`open(..., "w+")` + `writelines`): append to the
write log and make the path exist. -/
def writeFile (st : RunState) (path : String) (lines : List String) : RunState :=
  { st with
    writes := st.writes ++ [(path, lines)],
    fs := { pathExists := fun p => if p = path then true else st.fs.pathExists p,
            listdir := st.fs.listdir } }

/-- The output filepath of a real playlist (`__main__.py` lines 192-195):
`dir_sep.join([pl_dir + folders, name, "playlist.xml"])` in XML mode,
`pl_dir + folders + dir_sep + name + ".m3u"` otherwise. -/
def plOutPath (cfg : Cfg) (parents_path pl_name_sanitized : String) : String :=
  if cfg.xml_output then
    pyJoin cfg.dir_sep [cfg.pl_dir ++ parents_path, pl_name_sanitized, "playlist.xml"]
  else cfg.pl_dir ++ parents_path ++ cfg.dir_sep ++ pl_name_sanitized ++ ".m3u"

/-- The sibling `.missing` filepath (`__main__.py` lines 294-300): split the
playlist filepath on the separator and replace (XML mode) or suffix (M3U
mode) the last component. -/
def missingPath (cfg : Cfg) (pl_filepath : String) : String :=
  let parts := pySplit pl_filepath cfg.dir_sep
  let parts' :=
    if cfg.xml_output then parts.dropLast ++ ["playlist.missing"]
    else parts.dropLast ++ [(parts.getLast?.getD "") ++ ".missing"]
  pyJoin cfg.dir_sep parts'

/-- One iteration of the `for i, plist in enumerate(playlists)` loop of
`parse_xml`: skip ignored names; skip folders (decrementing the total); build
the output path via the parent-folder walk (whose `KeyError`/`RecursionError`
is the `none` case); skip the playlist wholesale if its output already
exists; otherwise run the member loop, record incompleteness, write the
playlist file and its `.missing` sibling. -/
def processPlaylist (cfg : Cfg) (all_tracks : List (String × Node))
    (folders : List (String × String × String)) (st : RunState) (p : PL) :
    Option (Except String RunState) :=
  if pl_ignores.contains p.name then some (Except.ok st)
  else if p.isFolder then
    some (Except.ok { st with total_playlists := st.total_playlists - 1 })
  else
    match parent_folder python_recursion_limit folders p.parent_id "" cfg.dir_sep with
    | Except.error _ => none
    | Except.ok parents_path =>
      match sanitize_path p.name "Name" with
      | none => none
      | some pl_name_sanitized =>
        let pl_filepath := plOutPath cfg parents_path pl_name_sanitized
        if st.fs.pathExists pl_filepath then some (Except.ok st)
        else
          match processMembers st.fs cfg all_tracks
              ⟨[], [], st.all_tracks_not_found, st.all_tracks_in_pls, false⟩
              p.members with
          | none => none
          | some (Except.error e) => some (Except.error e)
          | some (Except.ok ms) =>
            let st := { st with
              all_tracks_in_pls := ms.all_tracks_in_pls,
              all_tracks_not_found := ms.all_tracks_not_found }
            let st := if ms.pl_incomplete then { st with
                incomplete_playlists := st.incomplete_playlists ++ [p.name ++ "\n"] }
              else st
            let st := writeFile st pl_filepath ms.track_paths
            some (Except.ok
              (writeFile st (missingPath cfg pl_filepath) ms.pl_tracks_not_found))

/-- The playlist loop folded over the playlist list. -/
def runPlaylists (cfg : Cfg) (all_tracks : List (String × Node))
    (folders : List (String × String × String)) (st : RunState) :
    List PL → Option (Except String RunState)
  | [] => some (Except.ok st)
  | p :: rest =>
    match processPlaylist cfg all_tracks folders st p with
    | none => none
    | some (Except.error e) => some (Except.error e)
    | some (Except.ok st') => runPlaylists cfg all_tracks folders st' rest

/-- Embeds `parse_xml`: build the folder table, initialise
`total_playlists = len(playlists) - len(pl_ignores)` and the empty
accumulators, run the playlist loop, and finish with the two unconditional
global writes (`00incomplete_playlists.txt`, `00tracks_not_found.m3u`).
The console summary reports `len(all_tracks_not_found) /
len(all_tracks_in_pls)` and `len(incomplete_playlists) / total_playlists`
of the final state. -/
def parse_xml (cfg : Cfg) (all_tracks : List (String × Node))
    (playlists : List PL) (fs : FS) : Option (Except String RunState) :=
  let folders := get_pl_folders playlists
  let st0 : RunState :=
    ⟨fs, [], [], [], [], (playlists.length : Int) - (pl_ignores.length : Int)⟩
  match runPlaylists cfg all_tracks folders st0 playlists with
  | none => none
  | some (Except.error e) => some (Except.error e)
  | some (Except.ok st) =>
    let st := writeFile st (cfg.pl_dir ++ "00incomplete_playlists.txt")
      st.incomplete_playlists
    let st := writeFile st (cfg.pl_dir ++ "00tracks_not_found.m3u")
      st.all_tracks_not_found
    some (Except.ok st)

/-- Whether a run completed without an exception or a raised
`FileNotFoundError`. -/
def convOk (r : Option (Except String RunState)) : Bool :=
  match r with
  | some (Except.ok _) => true
  | _ => false

/-- The final state of a completed run (an arbitrary state otherwise). -/
def convState (r : Option (Except String RunState)) : RunState :=
  match r with
  | some (Except.ok st) => st
  | _ => ⟨⟨fun _ => false, fun _ => []⟩, [], [], [], [], 0⟩

/-! ## Concrete instances used by the theorems below -/

/-- A trivial filesystem on which nothing exists. -/
def fsNone : FS := ⟨fun _ => false, fun _ => []⟩

/-- A music tree whose root holds `ABC` (equal, ignoring case, to the probed
segment `abc`) and `xabcx` (which merely contains it). -/
def fsC4 : FS :=
  ⟨fun p => p = "/m/" || p = "/m/ABC" || p = "/m/ABC/" || p = "/m/xabcx"
     || p = "/m/xabcx/",
   fun p => if p = "/m/" then ["ABC", "xabcx"] else []⟩

/-- The spec's first fuzzy-search example: a root holding `Jane Shepard`. -/
def fsJS : FS :=
  ⟨fun p => p = "/M/" || p = "/M/Jane Shepard" || p = "/M/Jane Shepard/",
   fun p => if p = "/M/" then ["Jane Shepard"] else []⟩

/-- The spec's second fuzzy-search example: a root holding `Greatest Hits`. -/
def fsGH : FS :=
  ⟨fun p => p = "/M/" || p = "/M/Greatest Hits" || p = "/M/Greatest Hits/",
   fun p => if p = "/M/" then ["Greatest Hits"] else []⟩

/-- A root with a single unrelated entry, so no segment matches. -/
def fsNF : FS :=
  ⟨fun p => p = "/M/",
   fun p => if p = "/M/" then ["Nope"] else []⟩

/-- A minimal well-formed track node (kind `MPEG audio file`). -/
def songNode : Node :=
  [XItem.key "Name", XItem.str "Song", XItem.key "Kind", XItem.str "MPEG audio file"]

/-- A track node whose `Kind` is not a key of `FILE_EXT_MAP`. -/
def c1Node : Node :=
  [XItem.key "Name", XItem.str "Renegade",
   XItem.key "Kind", XItem.str "Ogg Vorbis audio file"]

/-- An M3U-mode, `warn`-policy configuration. -/
def cfg3 : Cfg := ⟨"/mu/", "", "/", Policy.pwarn, false, "/pl/"⟩

/-- The same configuration under the `error` policy. -/
def cfgE : Cfg := ⟨"/mu/", "", "/", Policy.perr, false, "/pl/"⟩

/-- The same configuration under the `none` policy. -/
def cfgN : Cfg := ⟨"/mu/", "", "/", Policy.pnone, false, "/pl/"⟩

/-- An all-tracks dict holding `songNode` under ID `1`. -/
def table3 : List (String × Node) := [("1", songNode)]

/-- A single real playlist `P` whose one member is track `1`. -/
def pls3 : List PL := [⟨"P", "PID1", "", false, ["1"]⟩]

/-- A filesystem on which exactly the expected file of `songNode` exists. -/
def fs3 : FS :=
  ⟨fun p => p = "/mu/Unknown Artist/Unknown Album/Song.mp3", fun _ => []⟩

/-- Whether a parent-chain walk ended in an error. -/
def isErr (r : Except PFErr String) : Bool :=
  match r with
  | Except.error _ => true
  | Except.ok _ => false

/-! ## Theorems -/

/-- Claim C1 (code_bug evidence).  For a playlist member whose track's `Kind` is
not a key of `FILE_EXT_MAP`, `Track._get_file_ext` does return the skip signal
(`None`, the second conjunct), but `parse_xml` then evaluates
`dir_sep.join([...]) + tr.file_ext` with `tr.file_ext = None`, raising
`TypeError` — the member-processing step crashes (`none`, the first conjunct)
instead of skipping the track and continuing. -/
theorem C1_unknown_kind_crashes :
    processMember fsNone cfg3 [("101", c1Node)] ⟨[], [], [], [], false⟩ "101"
      = none
    ∧ get_file_ext c1Node = some none :=
  ⟨rfl, rfl⟩

/-- Whether the parent chain starting at `i` reaches the empty ID (the walk's
base case) within `fuel` lookup steps, all of them succeeding.  This is the
exact condition under which the walk can return a path: a chain that is
cyclic — of any length — or dangling never satisfies it for any `fuel`. -/
def chainReachesEmpty (table : List (String × String × String)) :
    Nat → String → Bool
  | 0, i => i = ""
  | fuel + 1, i =>
    if i = "" then true
    else
      match pyDictFind table i with
      | none => false
      | some parent_info => chainReachesEmpty table fuel parent_info.2

/-- A two-node parent cycle `A → B → A`. -/
def cyc2Table : List (String × String × String) :=
  [("A", "x", "B"), ("B", "y", "A")]

/-- On the two-node cycle the parent chain never reaches the empty ID,
whatever the step budget. -/
theorem cyc2_chain_never (n : Nat) :
    chainReachesEmpty cyc2Table n "A" = false
    ∧ chainReachesEmpty cyc2Table n "B" = false := by
  induction n with
  | zero => exact ⟨rfl, rfl⟩
  | succ m ih => exact ⟨ih.2, ih.1⟩

/-- Claim C7.  The parent-chain walk of `Playlist._parent_folder` always
terminates with an error on a bad table rather than silently producing a
path.  First conjunct (general): whenever the parent chain from the starting
ID does not reach the empty ID within the recursion budget — which is the
case, at every budget, for a cyclic chain of any length and for a chain
ending in a dangling ID — the walk returns an error (Python raises
`RecursionError` at its recursion limit, or `KeyError`).  Then three
instances: the two-node cycle `A → B → A` errors for every budget, a
self-referential parent ID errors for every budget, and a dangling parent ID
immediately yields the `KeyError`-style error. -/
theorem C7_parent_chain_errors :
    (∀ (fuel : Nat) (table : List (String × String × String)) (i p sep : String),
      chainReachesEmpty table fuel i = false →
      isErr (parent_folder fuel table i p sep) = true) ∧
    (∀ (fuel : Nat) (sep : String),
      isErr (parent_folder fuel cyc2Table "A" "" sep) = true) ∧
    (∀ (fuel : Nat) (table : List (String × String × String)) (i n p sep : String),
      pyDictFind table i = some (n, i) → i ≠ "" →
      isErr (parent_folder fuel table i p sep) = true) ∧
    (∀ (fuel : Nat) (table : List (String × String × String)) (i p sep : String),
      pyDictFind table i = none → i ≠ "" →
      parent_folder (fuel + 1) table i p sep = Except.error (PFErr.dangling i)) := by
  have hgen : ∀ (fuel : Nat) (table : List (String × String × String))
      (i p sep : String), chainReachesEmpty table fuel i = false →
      isErr (parent_folder fuel table i p sep) = true := by
    intro fuel
    induction fuel with
    | zero => intro table i p sep _; rfl
    | succ f ih =>
      intro table i p sep h
      by_cases hi : i = ""
      · subst hi
        simp [chainReachesEmpty] at h
      · simp only [chainReachesEmpty, if_neg hi] at h
        cases hf : pyDictFind table i with
        | none =>
          simp only [parent_folder, if_neg hi, hf]
          rfl
        | some parent_info =>
          rw [hf] at h
          simp only [parent_folder, if_neg hi, hf]
          exact ih table parent_info.2 _ sep h
  refine ⟨hgen, ?_, ?_, ?_⟩
  · intro fuel sep
    exact hgen fuel cyc2Table "A" "" sep (cyc2_chain_never fuel).1
  · intro fuel table i n p sep ht hi
    have hnever : ∀ f : Nat, chainReachesEmpty table f i = false := by
      intro f
      induction f with
      | zero => simp [chainReachesEmpty, hi]
      | succ g ihg =>
        simp only [chainReachesEmpty, if_neg hi, ht]
        exact ihg
    exact hgen fuel table i p sep (hnever fuel)
  · intro fuel table i p sep ht hi
    simp only [parent_folder, if_neg hi, ht]

/-- Witness for C7: the two-node cycle `A → B → A` errors at small budgets
(discharging the general conjunct's hypothesis by evaluation) and at the
default recursion limit; the self-referential table `A → ("Rock", A)` errors
at the default recursion limit; a dangling ID `B` in the empty table reports
the missing reference. -/
theorem C7_parent_chain_errors_witness :
    isErr (parent_folder 5 cyc2Table "A" "" "/") = true
    ∧ isErr (parent_folder python_recursion_limit cyc2Table "A" "" "/") = true
    ∧ isErr (parent_folder python_recursion_limit [("A", "Rock", "A")] "A" "" "/")
      = true
    ∧ parent_folder 1 [] "B" "" "/" = Except.error (PFErr.dangling "B") :=
  ⟨C7_parent_chain_errors.1 5 cyc2Table "A" "" "/" rfl,
   C7_parent_chain_errors.2.1 python_recursion_limit "/",
   C7_parent_chain_errors.2.2.1 python_recursion_limit [("A", "Rock", "A")]
      "A" "Rock" "" "/" rfl (by decide),
   C7_parent_chain_errors.2.2.2 0 [] "B" "" "/" rfl (by decide)⟩

/-- Claim C8.  `get_str_attr` on a node missing the requested field returns
`"Unknown Album"` when the field is `Album` and the empty string for every
other field; in particular a missing `Artist` yields `""`, not
`"Unknown Artist"`. -/
theorem C8_missing_field_defaults :
    (∀ (node : Node) (attr : String) (ps : Bool), lookupStr node attr = none →
      get_str_attr node attr ps
        = some (if attr = "Album" then "Unknown Album" else "")) ∧
    (∀ (node : Node) (ps : Bool), lookupStr node "Artist" = none →
      get_str_attr node "Artist" ps = some "") := by
  constructor
  · intro node attr ps h
    simp only [get_str_attr, h]
    split <;> simp_all
  · intro node ps h
    simp only [get_str_attr, h]
    rfl

/-- Witness for C8 on the empty node. -/
theorem C8_missing_field_defaults_witness :
    get_str_attr [] "Album" true = some "Unknown Album"
    ∧ get_str_attr [] "Artist" true = some "" := by
  constructor
  · simpa using C8_missing_field_defaults.1 [] "Album" true rfl
  · exact C8_missing_field_defaults.2 [] true rfl

/-- The sanitizer `sanitize_path` crashes (IndexError at `entry[-1]`) on the empty string
for every attribute other than `"Name"`. -/
theorem sanitize_path_empty (a : String) (ha : a ≠ "Name") :
    sanitize_path "" a = none := by
  simp only [sanitize_path, replaceInvalidChars]
  rw [if_neg ha]
  rfl

/-- Claim C10.  The path sanitizer fails on the empty string for every
attribute other than `"Name"` (out-of-range `entry[-1]`), and consequently
`get_str_attr` with sanitization raises — returns no string — on a field
that is present but strips to the empty string. -/
theorem C10_sanitize_empty_raises :
    (∀ a : String, a ≠ "Name" → sanitize_path "" a = none) ∧
    (∀ (node : Node) (a v : String), a ≠ "Name" → lookupStr node a = some v →
      pyStrip v = "" → get_str_attr node a true = none) := by
  constructor
  · exact sanitize_path_empty
  · intro node a v ha hl hs
    simp only [get_str_attr, hl, hs, if_pos rfl]
    exact sanitize_path_empty a ha

/-- Witness for C10: the empty string under attribute `Album`, and a
whitespace-only `Artist` value. -/
theorem C10_sanitize_empty_raises_witness :
    sanitize_path "" "Album" = none
    ∧ get_str_attr [XItem.key "Artist", XItem.str " "] "Artist" true = none :=
  ⟨C10_sanitize_empty_raises.1 "Album" (by decide),
   C10_sanitize_empty_raises.2 [XItem.key "Artist", XItem.str " "]
     "Artist" " " (by decide) rfl rfl⟩

/-- The `"Various Artists"` case normalization applied to a value chosen from
the priority list. -/
def vaFix (v : String) : String :=
  if v = "Various Artists" then "VARIOUS ARTISTS" else v

/-- The early-return pair of `artistDirLoop` is `vaFix` of the chosen value. -/
theorem va_if (v : String) :
    (if v = "Various Artists" then some (some "VARIOUS ARTISTS")
     else some (some v)) = some (some (vaFix v)) := by
  simp only [vaFix]
  split <;> rfl

/-- Claim C5.  `Track._get_artist_dir` is deterministic with the claimed
precedence: a present `Compilation` key forces `"Compilations"` regardless of
every other field; otherwise the first non-empty value of the priority list
`["Sort Album Artist", "Album Artist", "Sort Artist"]` (with `"Various
Artists"` rewritten to `"VARIOUS ARTISTS"`), else the track's `Artist` value
when non-empty, else `"Unknown Artist"`. -/
theorem C5_artist_dir_precedence :
    (∀ (node : Node) (artist : String), hasKey node "Compilation" = true →
      get_artist_dir node artist = some "Compilations") ∧
    (∀ (node : Node) (artist v1 v2 v3 : String),
      hasKey node "Compilation" = false →
      get_str_attr node "Sort Album Artist" true = some v1 →
      get_str_attr node "Album Artist" true = some v2 →
      get_str_attr node "Sort Artist" true = some v3 →
      get_artist_dir node artist = some (
        if v1 ≠ "" then vaFix v1
        else if v2 ≠ "" then vaFix v2
        else if v3 ≠ "" then vaFix v3
        else if artist ≠ "" then artist
        else "Unknown Artist")) := by
  constructor
  · intro node artist h
    simp only [get_artist_dir, h, if_pos]
  · intro node artist v1 v2 v3 hc h1 h2 h3
    simp only [get_artist_dir, hc, Bool.false_eq_true, if_false, priority_attrs,
      artistDirLoop, h1, h2, h3, va_if]
    by_cases e1 : v1 = "" <;> by_cases e2 : v2 = "" <;> by_cases e3 : v3 = ""
      <;> by_cases ea : artist = ""
      <;> simp [e1, e2, e3, ea, vaFix]

/-- Witness for C5: a compilation node, and a plain node whose priority
fields are absent (the extractor then supplies `""`), a non-empty artist. -/
theorem C5_artist_dir_precedence_witness :
    get_artist_dir [XItem.key "Compilation"] "Someone" = some "Compilations"
    ∧ get_artist_dir songNode "" = some "Unknown Artist" := by
  constructor
  · exact C5_artist_dir_precedence.1 [XItem.key "Compilation"] "Someone" rfl
  · simpa using C5_artist_dir_precedence.2 songNode "" "" "" "" rfl rfl rfl rfl

/-- The final track-number formatting step of `_get_track_num`: zero-pad a
single-character track number and append a space, after the disc prefix. -/
def trackNumSuffix (tn t : String) : String :=
  if t.length = 1 then tn ++ "0" ++ t ++ " " else tn ++ t ++ " "

/-- Claim C6.  `Track._get_track_num` produces the zero-padded track number
followed by a space, with `disc-number ++ "-"` prepended exactly when the
`Disc Count` value exceeds 1 and a `Disc Number` is present; the four spec
examples evaluate as stated. -/
theorem C6_track_number_format :
    (∀ (node : Node) (t : String),
      lookupIntg node "Disc Count" = none →
      lookupIntg node "Track Number" = some t →
      get_track_num node = some (trackNumSuffix "" t)) ∧
    (∀ (node : Node) (t dcs : String) (d : Int),
      lookupIntg node "Disc Count" = some dcs → pyInt dcs = some d → ¬ d > 1 →
      lookupIntg node "Track Number" = some t →
      get_track_num node = some (trackNumSuffix "" t)) ∧
    (∀ (node : Node) (t dcs dn : String) (d : Int),
      lookupIntg node "Disc Count" = some dcs → pyInt dcs = some d → d > 1 →
      lookupIntg node "Disc Number" = some dn →
      lookupIntg node "Track Number" = some t →
      get_track_num node = some (trackNumSuffix (dn ++ "-") t)) ∧
    (∀ (node : Node) (t dcs : String) (d : Int),
      lookupIntg node "Disc Count" = some dcs → pyInt dcs = some d → d > 1 →
      lookupIntg node "Disc Number" = none →
      lookupIntg node "Track Number" = some t →
      get_track_num node = some (trackNumSuffix "" t)) ∧
    (get_track_num [XItem.key "Track Number", XItem.intg "3"] = some "03 "
     ∧ get_track_num [XItem.key "Track Number", XItem.intg "12"] = some "12 "
     ∧ get_track_num [XItem.key "Disc Count", XItem.intg "2",
         XItem.key "Disc Number", XItem.intg "1",
         XItem.key "Track Number", XItem.intg "4"] = some "1-04 "
     ∧ get_track_num [XItem.key "Disc Count", XItem.intg "1",
         XItem.key "Disc Number", XItem.intg "1",
         XItem.key "Track Number", XItem.intg "4"] = some "04 ") := by
  refine ⟨?_, ?_, ?_, ?_, rfl, rfl, rfl, rfl⟩
  · intro node t hdc ht
    simp only [get_track_num, hdc, ht, trackNumSuffix]
    split <;> rfl
  · intro node t dcs d hdc hd hle ht
    simp only [get_track_num, hdc, hd, if_neg hle, ht, trackNumSuffix]
    split <;> rfl
  · intro node t dcs dn d hdc hd hgt hdn ht
    simp only [get_track_num, hdc, hd, if_pos hgt, hdn, ht, trackNumSuffix]
    split <;> rfl
  · intro node t dcs d hdc hd hgt hdn ht
    simp only [get_track_num, hdc, hd, if_pos hgt, hdn, ht, trackNumSuffix]
    split <;> rfl

/-- Witness for C6: a two-disc node takes the disc prefix, a disc-count-one
node does not. -/
theorem C6_track_number_format_witness :
    get_track_num [XItem.key "Disc Count", XItem.intg "2",
        XItem.key "Disc Number", XItem.intg "1",
        XItem.key "Track Number", XItem.intg "4"]
      = some (trackNumSuffix ("1" ++ "-") "4")
    ∧ get_track_num [XItem.key "Disc Count", XItem.intg "1",
        XItem.key "Disc Number", XItem.intg "1",
        XItem.key "Track Number", XItem.intg "4"]
      = some (trackNumSuffix "" "4") :=
  ⟨C6_track_number_format.2.2.1 _ "4" "2" "1" 2 rfl rfl (by decide) rfl rfl,
   C6_track_number_format.2.1 _ "4" "1" 1 rfl rfl (by decide) rfl⟩

/-- Whether a directory entry updates the candidate in `bestDirToAdd`'s inner
loop: it equals the segment ignoring case, or contains mode is on and its
lowercased name contains the lowercased segment. -/
def entryMatches (tp_entry : String) (contains : Bool) (dir_entry : String) :
    Bool :=
  decide (pyLower dir_entry = pyLower tp_entry)
    || (pyIn (pyLower tp_entry) (pyLower dir_entry) && contains)

/-- A left fold that keeps the last element satisfying `p` computes the last
match of the list (or the initial value when there is none). -/
theorem foldl_lastMatch (p : String → Bool) (l : List String) :
    ∀ init : String,
      l.foldl (fun b a => if p a then a else b) init
        = ((l.reverse.find? p).getD init) := by
  induction l with
  | nil => intro init; rfl
  | cons a t ih =>
    intro init
    simp only [List.foldl_cons, List.reverse_cons, ih]
    cases h : t.reverse.find? p with
    | some x => simp [List.find?_append, h]
    | none =>
      by_cases hpa : p a <;> simp [List.find?_append, h, List.find?, hpa]

/-- The body of `bestDirToAdd`'s fold keeps the last entry matching either
criterion. -/
theorem bestDirToAdd_eq_lastMatch (tp_entry : String) (contains : Bool)
    (entries : List String) :
    bestDirToAdd tp_entry entries contains
      = ((entries.reverse.find? (entryMatches tp_entry contains)).getD tp_entry) := by
  have hbody : (fun (best dir_entry : String) =>
      let best1 := if pyLower dir_entry = pyLower tp_entry then dir_entry else best
      if pyIn (pyLower tp_entry) (pyLower dir_entry) && contains then dir_entry
      else best1)
      = fun b a => if entryMatches tp_entry contains a then a else b := by
    funext b a
    simp only [entryMatches]
    by_cases h1 : pyLower a = pyLower tp_entry
      <;> by_cases h2 : pyIn (pyLower tp_entry) (pyLower a) = true
      <;> cases contains <;> simp_all
  simp only [bestDirToAdd, hbody]
  exact foldl_lastMatch _ entries tp_entry

/-- Claim C4 (counterexample).  With contains mode on, directory listing
`["ABC", "xabcx"]` and probed segment `abc`: the entry `ABC` is equal to the
segment ignoring case, yet the resolver returns `/m/xabcx` — the later
containment match overrides the case-insensitive equality, so the claimed
preference of (a) over (b) does not hold. -/
theorem C4_counterexample :
    fsC4.listdir "/m/" = ["ABC", "xabcx"]
    ∧ pyLower "ABC" = pyLower "abc"
    ∧ fuzzy_search fsC4 "/m/abc" "/m/" "/" true = "/m/xabcx"
    ∧ fuzzy_search fsC4 "/m/abc" "/m/" "/" true ≠ "/m/ABC" :=
  ⟨rfl, rfl, rfl, by decide⟩

/-- Claim C4 (amended).  Per segment, the resolver takes the exact child if it
exists; otherwise the candidate is the **last** directory entry that either
equals the segment ignoring case or (in contains mode) contains the
lowercased segment — the last match of either kind wins, with no preference
between the two criteria — falling back to the original segment text; if the
path assembled from the chosen candidate does not exist the descent reports
not-found.  The spec's three concrete examples hold as stated. -/
theorem C4_fuzzy_segment_choice :
    (∀ (tp_entry : String) (contains : Bool) (entries : List String),
      bestDirToAdd tp_entry entries contains
        = ((entries.reverse.find? (entryMatches tp_entry contains)).getD tp_entry)) ∧
    (∀ (fs : FS) (sep : String) (c : Bool) (e : String) (rest : List String)
        (fx : String),
      fs.pathExists (fx ++ e) = true →
      fuzzyGo fs sep c (e :: rest) fx = fuzzyGo fs sep c rest (fx ++ e ++ sep)) ∧
    (∀ (fs : FS) (sep : String) (c : Bool) (e : String) (rest : List String)
        (fx : String),
      fs.pathExists (fx ++ e) = false →
      fs.pathExists (fx ++ bestDirToAdd e (fs.listdir fx) c ++ sep) = true →
      fuzzyGo fs sep c (e :: rest) fx
        = fuzzyGo fs sep c rest (fx ++ bestDirToAdd e (fs.listdir fx) c ++ sep)) ∧
    (∀ (fs : FS) (sep : String) (c : Bool) (e : String) (rest : List String)
        (fx : String),
      fs.pathExists (fx ++ e) = false →
      fs.pathExists (fx ++ bestDirToAdd e (fs.listdir fx) c ++ sep) = false →
      fuzzyGo fs sep c (e :: rest) fx = none) ∧
    (fuzzy_search fsJS "/M/jane shepard" "/M/" "/" false = "/M/Jane Shepard"
     ∧ fuzzy_search fsGH "/M/greatest" "/M/" "/" true = "/M/Greatest Hits"
     ∧ fuzzy_search fsNF "/M/xyz" "/M/" "/" false = "") := by
  refine ⟨bestDirToAdd_eq_lastMatch, ?_, ?_, ?_, rfl, rfl, rfl⟩
  · intro fs sep c e rest fx h
    simp only [fuzzyGo, h, if_true]
  · intro fs sep c e rest fx h1 h2
    simp only [fuzzyGo, h1, Bool.false_eq_true, if_false, h2, if_true]
  · intro fs sep c e rest fx h1 h2
    simp only [fuzzyGo, h1, h2, Bool.false_eq_true, if_false]

/-- Witness for C4 (amended), exercising each hypothesis-bearing conjunct at
concrete inputs. -/
theorem C4_fuzzy_segment_choice_witness :
    bestDirToAdd "abc" ["ABC", "xabcx"] true
      = (((["ABC", "xabcx"]).reverse.find? (entryMatches "abc" true)).getD "abc")
    ∧ fuzzyGo fsC4 "/" true ["ABC"] "/m/"
        = fuzzyGo fsC4 "/" true [] ("/m/" ++ "ABC" ++ "/")
    ∧ fuzzyGo fsC4 "/" true ["abc"] "/m/"
        = fuzzyGo fsC4 "/" true []
            ("/m/" ++ bestDirToAdd "abc" (fsC4.listdir "/m/") true ++ "/")
    ∧ fuzzyGo fsNF "/" false ["xyz"] "/M/" = none :=
  ⟨C4_fuzzy_segment_choice.1 "abc" true ["ABC", "xabcx"],
   C4_fuzzy_segment_choice.2.1 fsC4 "/" true "ABC" [] "/m/" rfl,
   C4_fuzzy_segment_choice.2.2.1 fsC4 "/" true "abc" [] "/m/" rfl rfl,
   C4_fuzzy_segment_choice.2.2.2.1 fsNF "/" false "xyz" [] "/M/" rfl rfl⟩

/-- Claim C2.  For a playlist member whose expected path does not exist and
whose fuzzy-searched correction does not exist either: the miss is recorded
in the per-playlist and the global miss set and the playlist is marked
incomplete in every case; then under `warn` the member is omitted from the
output list and processing continues, under `error` the member step raises
`FileNotFoundError` (which aborts the run, see `processMembers` /
`runPlaylists`), and under `none` the unresolved expected path is still
appended to the output list. -/
theorem C2_miss_policy (fs : FS) (cfg : Cfg) (all_tracks : List (String × Node))
    (st : MemberState) (tid : String) (tr_el : Node) (tr : TrackV) (ext : String)
    (rel check path corrected miss : String)
    (h1 : lookup_song all_tracks tid = some tr_el)
    (h2 : trackOfNode tr_el = some tr)
    (h3 : tr.file_ext = some ext)
    (h4 : rel = pyJoin cfg.dir_sep [tr.artist_dir, tr.album, tr.track_num ++ tr.name]
      ++ ext)
    (h5 : check = cfg.music_dir ++ rel)
    (h6 : path = if cfg.docker_dir ≠ "" then cfg.docker_dir ++ rel else check)
    (h7 : corrected = fuzzy_search fs check cfg.music_dir cfg.dir_sep true)
    (h8 : miss = (if corrected = "" then check else corrected) ++ "\n")
    (hx : fs.pathExists check = false)
    (hy : fs.pathExists corrected = false) :
    processMember fs cfg all_tracks st tid = some (
      match cfg.policy with
      | Policy.pwarn => Except.ok ⟨st.track_paths,
          setAdd st.pl_tracks_not_found miss,
          setAdd st.all_tracks_not_found miss,
          setAdd st.all_tracks_in_pls check, true⟩
      | Policy.perr => Except.error ("file " ++ path ++ " not found.")
      | Policy.pnone => Except.ok ⟨st.track_paths ++ [path ++ "\n"],
          setAdd st.pl_tracks_not_found miss,
          setAdd st.all_tracks_not_found miss,
          setAdd st.all_tracks_in_pls check, true⟩) := by
  subst h4 h5 h6 h7 h8
  simp only [processMember, h1, h2, h3, hx, hy, Bool.false_eq_true, if_false]
  cases cfg.policy <;> rfl

/-- Witness for C2: the single-track library on an empty filesystem under
each of the three policies. -/
theorem C2_miss_policy_witness :
    processMember fsNone cfg3 table3 ⟨[], [], [], [], false⟩ "1" = some (Except.ok
      ⟨[], ["/mu/Unknown Artist/Unknown Album/Song.mp3\n"],
       ["/mu/Unknown Artist/Unknown Album/Song.mp3\n"],
       ["/mu/Unknown Artist/Unknown Album/Song.mp3"], true⟩)
    ∧ processMember fsNone cfgE table3 ⟨[], [], [], [], false⟩ "1"
      = some (Except.error
          "file /mu/Unknown Artist/Unknown Album/Song.mp3 not found.")
    ∧ processMember fsNone cfgN table3 ⟨[], [], [], [], false⟩ "1" = some (Except.ok
      ⟨["/mu/Unknown Artist/Unknown Album/Song.mp3\n"],
       ["/mu/Unknown Artist/Unknown Album/Song.mp3\n"],
       ["/mu/Unknown Artist/Unknown Album/Song.mp3\n"],
       ["/mu/Unknown Artist/Unknown Album/Song.mp3"], true⟩) := by
  refine ⟨?_, ?_, ?_⟩
  · exact C2_miss_policy fsNone cfg3 table3 ⟨[], [], [], [], false⟩ "1"
      songNode ⟨"Song", "", "Unknown Album", "", "Unknown Artist", some ".mp3"⟩
      ".mp3" _ _ _ _ _ rfl rfl rfl rfl rfl rfl rfl rfl rfl rfl
  · exact C2_miss_policy fsNone cfgE table3 ⟨[], [], [], [], false⟩ "1"
      songNode ⟨"Song", "", "Unknown Album", "", "Unknown Artist", some ".mp3"⟩
      ".mp3" _ _ _ _ _ rfl rfl rfl rfl rfl rfl rfl rfl rfl rfl
  · exact C2_miss_policy fsNone cfgN table3 ⟨[], [], [], [], false⟩ "1"
      songNode ⟨"Song", "", "Unknown Album", "", "Unknown Artist", some ".mp3"⟩
      ".mp3" _ _ _ _ _ rfl rfl rfl rfl rfl rfl rfl rfl rfl rfl

/-- For the display-`"Name"` attribute, `sanitize_path` only performs the
character replacement (the dot rules are skipped), so it never fails. -/
theorem sanitize_path_name (s : String) :
    sanitize_path s "Name" = some (replaceInvalidChars s) := by
  simp [sanitize_path]

/-- If every real playlist's output path already exists on the run's
filesystem (and its folder chain resolves), the playlist loop skips every
entry: it performs no writes and leaves the filesystem and every accumulator
unchanged (only `total_playlists` may drop, for folders). -/
theorem runPlaylists_all_exist (cfg : Cfg) (all_tracks : List (String × Node))
    (folders : List (String × String × String)) :
    ∀ (pls : List PL) (st : RunState),
      (∀ p ∈ pls, pl_ignores.contains p.name = false → p.isFolder = false →
        ∃ pp, parent_folder python_recursion_limit folders p.parent_id ""
            cfg.dir_sep = Except.ok pp ∧
          st.fs.pathExists (plOutPath cfg pp (replaceInvalidChars p.name)) = true) →
      ∃ st', runPlaylists cfg all_tracks folders st pls = some (Except.ok st')
        ∧ st'.fs = st.fs ∧ st'.writes = st.writes
        ∧ st'.all_tracks_in_pls = st.all_tracks_in_pls
        ∧ st'.all_tracks_not_found = st.all_tracks_not_found
        ∧ st'.incomplete_playlists = st.incomplete_playlists := by
  intro pls
  induction pls with
  | nil =>
    intro st _
    exact ⟨st, rfl, rfl, rfl, rfl, rfl, rfl⟩
  | cons p rest ih =>
    intro st h
    cases hig : pl_ignores.contains p.name with
    | true =>
      obtain ⟨st', hrun, hfs, hw, hin, hnf, hinc⟩ := ih st (fun q hq => h q (List.mem_cons_of_mem p hq))
      refine ⟨st', ?_, hfs, hw, hin, hnf, hinc⟩
      simp only [runPlaylists, processPlaylist, hig, if_true]
      exact hrun
    | false =>
      cases hf : p.isFolder with
      | true =>
        obtain ⟨st', hrun, hfs, hw, hin, hnf, hinc⟩ :=
          ih { st with total_playlists := st.total_playlists - 1 }
            (fun q hq => h q (List.mem_cons_of_mem p hq))
        refine ⟨st', ?_, hfs, hw, hin, hnf, hinc⟩
        simp only [runPlaylists, processPlaylist, hig, hf, Bool.false_eq_true,
          if_false, if_true]
        exact hrun
      | false =>
        obtain ⟨pp, hok, hex⟩ := h p (List.mem_cons_self p rest) hig hf
        obtain ⟨st', hrun, hfs, hw, hin, hnf, hinc⟩ :=
          ih st (fun q hq => h q (List.mem_cons_of_mem p hq))
        refine ⟨st', ?_, hfs, hw, hin, hnf, hinc⟩
        simp only [runPlaylists, processPlaylist, hig, hf, Bool.false_eq_true,
          if_false, hok, sanitize_path_name, hex, if_true]
        exact hrun

/-- Claim C3 (amended).  On an unchanged source whose every real playlist's
output path already exists, a run completes, skips every playlist without
modification, leaves every accumulator empty — so the summary reports
`0 / 0` tracks and `0` incomplete playlists — but still performs exactly two
writes: it rewrites the global `00incomplete_playlists.txt` and
`00tracks_not_found.m3u` files with empty content. -/
theorem C3_second_run_writes (cfg : Cfg) (all_tracks : List (String × Node))
    (pls : List PL) (fs : FS)
    (h : ∀ p ∈ pls, pl_ignores.contains p.name = false → p.isFolder = false →
      ∃ pp, parent_folder python_recursion_limit (get_pl_folders pls)
          p.parent_id "" cfg.dir_sep = Except.ok pp ∧
        fs.pathExists (plOutPath cfg pp (replaceInvalidChars p.name)) = true) :
    convOk (parse_xml cfg all_tracks pls fs) = true
    ∧ (convState (parse_xml cfg all_tracks pls fs)).writes
      = [(cfg.pl_dir ++ "00incomplete_playlists.txt", []),
         (cfg.pl_dir ++ "00tracks_not_found.m3u", [])]
    ∧ (convState (parse_xml cfg all_tracks pls fs)).all_tracks_in_pls = []
    ∧ (convState (parse_xml cfg all_tracks pls fs)).all_tracks_not_found = []
    ∧ (convState (parse_xml cfg all_tracks pls fs)).incomplete_playlists = [] := by
  obtain ⟨st', hrun, hfs, hw, hin, hnf, hinc⟩ :=
    runPlaylists_all_exist cfg all_tracks (get_pl_folders pls) pls
      ⟨fs, [], [], [], [], (pls.length : Int) - (pl_ignores.length : Int)⟩ h
  simp only [parse_xml, hrun, convOk, convState, writeFile, hw, hin, hnf, hinc]
  simp

/-- A filesystem on which the output file of playlist `P` already exists. -/
def fsW3 : FS := ⟨fun p => p = "/pl//P.m3u", fun _ => []⟩

/-- Witness for C3 (amended) on the one-playlist library whose output file
already exists. -/
theorem C3_second_run_writes_witness :
    convOk (parse_xml cfg3 table3 pls3 fsW3) = true
    ∧ (convState (parse_xml cfg3 table3 pls3 fsW3)).writes
      = [(cfg3.pl_dir ++ "00incomplete_playlists.txt", []),
         (cfg3.pl_dir ++ "00tracks_not_found.m3u", [])]
    ∧ (convState (parse_xml cfg3 table3 pls3 fsW3)).all_tracks_in_pls = []
    ∧ (convState (parse_xml cfg3 table3 pls3 fsW3)).all_tracks_not_found = []
    ∧ (convState (parse_xml cfg3 table3 pls3 fsW3)).incomplete_playlists = [] := by
  refine C3_second_run_writes cfg3 table3 pls3 fsW3 ?_
  intro p hp hig hf
  simp only [pls3, List.mem_singleton] at hp
  subst hp
  exact ⟨"", rfl, rfl⟩

/-- The first run of the C3 scenario: one playlist, one track that exists. -/
def c3run1 : Option (Except String RunState) := parse_xml cfg3 table3 pls3 fs3

/-- The second run of the C3 scenario, on the filesystem as the first run
left it. -/
def c3run2 : Option (Except String RunState) :=
  parse_xml cfg3 table3 pls3 (convState c3run1).fs

/-- Claim C3 (counterexample).  Running the conversion twice under the `warn`
policy on an unchanged source: the first run references one unique track
(summary denominator 1) and writes four files; the second run skips the
playlist but still performs two writes — it rewrites the two global summary
files with empty content — and reports a summary denominator of 0, not the
first run's 1.  So the second run neither performs zero writes nor reports
the first run's counts. -/
theorem C3_counterexample :
    convOk c3run1 = true
    ∧ (convState c3run1).all_tracks_in_pls.length = 1
    ∧ convOk c3run2 = true
    ∧ (convState c3run2).writes
      = [("/pl/00incomplete_playlists.txt", []),
         ("/pl/00tracks_not_found.m3u", [])]
    ∧ (convState c3run2).writes.length ≠ 0
    ∧ (convState c3run2).all_tracks_in_pls.length = 0
    ∧ (convState c3run2).all_tracks_in_pls.length
      ≠ (convState c3run1).all_tracks_in_pls.length :=
  ⟨rfl, rfl, rfl, rfl, by decide, rfl, by decide⟩

/-- Insertion `setAdd` preserves freedom from duplicates (it is Python `set.add`). -/
theorem setAdd_nodup {l : List String} {x : String} (h : l.Nodup) :
    (setAdd l x).Nodup := by
  unfold setAdd
  split
  · exact h
  · next hx => simp [List.nodup_append, h, hx]

/-- One member step keeps the two global sets duplicate-free. -/
theorem processMember_nodup {fs : FS} {cfg : Cfg}
    {all_tracks : List (String × Node)} {st : MemberState} {tid : String}
    {st' : MemberState}
    (h : processMember fs cfg all_tracks st tid = some (Except.ok st'))
    (h1 : st.all_tracks_not_found.Nodup) (h2 : st.all_tracks_in_pls.Nodup) :
    st'.all_tracks_not_found.Nodup ∧ st'.all_tracks_in_pls.Nodup := by
  simp only [processMember] at h
  split at h
  · exact Option.noConfusion h
  · split at h
    · exact Option.noConfusion h
    · split at h
      · exact Option.noConfusion h
      · split at h
        · simp only [Option.some.injEq, Except.ok.injEq] at h
          subst h
          exact ⟨h1, setAdd_nodup h2⟩
        · split at h
          · simp only [Option.some.injEq, Except.ok.injEq] at h
            subst h
            exact ⟨h1, setAdd_nodup h2⟩
          · split at h
            · simp only [Option.some.injEq, Except.ok.injEq] at h
              subst h
              exact ⟨setAdd_nodup h1, setAdd_nodup h2⟩
            · simp at h
            · simp only [Option.some.injEq, Except.ok.injEq] at h
              subst h
              exact ⟨setAdd_nodup h1, setAdd_nodup h2⟩

/-- The member loop keeps the two global sets duplicate-free. -/
theorem processMembers_nodup {fs : FS} {cfg : Cfg}
    {all_tracks : List (String × Node)} :
    ∀ (tids : List String) (st st' : MemberState),
      processMembers fs cfg all_tracks st tids = some (Except.ok st') →
      st.all_tracks_not_found.Nodup → st.all_tracks_in_pls.Nodup →
      st'.all_tracks_not_found.Nodup ∧ st'.all_tracks_in_pls.Nodup := by
  intro tids
  induction tids with
  | nil =>
    intro st st' h h1 h2
    simp only [processMembers, Option.some.injEq, Except.ok.injEq] at h
    subst h
    exact ⟨h1, h2⟩
  | cons tid rest ih =>
    intro st st' h h1 h2
    simp only [processMembers] at h
    split at h
    · exact Option.noConfusion h
    · simp at h
    · next st₁ hm =>
      obtain ⟨g1, g2⟩ := processMember_nodup hm h1 h2
      exact ih st₁ st' h g1 g2

/-- The number of playlist entries the loop counts down for: folder-flagged
entries whose name is not in the ignore list (an ignored name is skipped
before the folder check). -/
def countFoldersNotIgnored (pls : List PL) : Int :=
  ((pls.filter (fun p => p.isFolder && !(pl_ignores.contains p.name))).length : Int)

/-- Unfolding `countFoldersNotIgnored` over a cons cell. -/
theorem countFoldersNotIgnored_cons (p : PL) (rest : List PL) :
    countFoldersNotIgnored (p :: rest)
      = (if p.isFolder && !(pl_ignores.contains p.name) then 1 else 0)
        + countFoldersNotIgnored rest := by
  simp only [countFoldersNotIgnored, List.filter_cons]
  split
  · simp only [List.length_cons]
    push_cast
    omega
  · simp

/-- One playlist step: `total_playlists` drops by one exactly on a
non-ignored folder, and the global sets stay duplicate-free. -/
theorem processPlaylist_inv {cfg : Cfg} {all_tracks : List (String × Node)}
    {folders : List (String × String × String)} {st : RunState} {p : PL}
    {st' : RunState}
    (h : processPlaylist cfg all_tracks folders st p = some (Except.ok st'))
    (h1 : st.all_tracks_not_found.Nodup) (h2 : st.all_tracks_in_pls.Nodup) :
    st'.total_playlists = st.total_playlists
      - (if p.isFolder && !(pl_ignores.contains p.name) then 1 else 0)
    ∧ st'.all_tracks_not_found.Nodup ∧ st'.all_tracks_in_pls.Nodup := by
  simp only [processPlaylist] at h
  split at h
  · next hc =>
    simp only [Option.some.injEq, Except.ok.injEq] at h
    subst h
    refine ⟨?_, h1, h2⟩
    simp only [hc]
    simp
  · split at h
    · next hc hf =>
      simp only [Option.some.injEq, Except.ok.injEq] at h
      subst h
      simp only [Bool.not_eq_true] at hc
      refine ⟨?_, h1, h2⟩
      simp only [hf, hc]
      simp
    · next hc hf =>
      simp only [Bool.not_eq_true] at hc hf
      split at h
      · exact Option.noConfusion h
      · split at h
        · exact Option.noConfusion h
        · split at h
          · simp only [Option.some.injEq, Except.ok.injEq] at h
            subst h
            refine ⟨?_, h1, h2⟩
            simp [hf]
          · split at h
            · exact Option.noConfusion h
            · simp at h
            · next ms hms =>
              simp only [Option.some.injEq, Except.ok.injEq] at h
              subst h
              obtain ⟨g1, g2⟩ := processMembers_nodup p.members
                ⟨[], [], st.all_tracks_not_found, st.all_tracks_in_pls, false⟩
                ms hms h1 h2
              cases hmi : ms.pl_incomplete
                <;> refine ⟨?_, ?_, ?_⟩
                <;> simp [writeFile, hf, hmi, g1, g2]

/-- The playlist loop: `total_playlists` drops by the number of non-ignored
folders, and the global sets stay duplicate-free. -/
theorem runPlaylists_inv {cfg : Cfg} {all_tracks : List (String × Node)}
    {folders : List (String × String × String)} :
    ∀ (pls : List PL) (st st' : RunState),
      runPlaylists cfg all_tracks folders st pls = some (Except.ok st') →
      st.all_tracks_not_found.Nodup → st.all_tracks_in_pls.Nodup →
      st'.total_playlists = st.total_playlists - countFoldersNotIgnored pls
      ∧ st'.all_tracks_not_found.Nodup ∧ st'.all_tracks_in_pls.Nodup := by
  intro pls
  induction pls with
  | nil =>
    intro st st' h h1 h2
    simp only [runPlaylists, Option.some.injEq, Except.ok.injEq] at h
    subst h
    simp only [countFoldersNotIgnored, List.filter_nil, List.length_nil]
    exact ⟨by omega, h1, h2⟩
  | cons p rest ih =>
    intro st st' h h1 h2
    simp only [runPlaylists] at h
    split at h
    · exact Option.noConfusion h
    · simp at h
    · next st₁ hp =>
      obtain ⟨t1, g1, g2⟩ := processPlaylist_inv hp h1 h2
      obtain ⟨t2, g3, g4⟩ := ih st₁ st' h g1 g2
      refine ⟨?_, g3, g4⟩
      rw [t2, t1, countFoldersNotIgnored_cons]
      omega

/-- Claim C9 (amended).  Every completed run reports, for the second summary
ratio, the denominator `len(playlists) - len(pl_ignores) -
(number of non-ignored folder entries)`; the miss and referenced-track
collections behind the first ratio are genuine sets (duplicate-free), so
their lengths count unique paths. -/
theorem C9_summary_counts (cfg : Cfg) (all_tracks : List (String × Node))
    (pls : List PL) (fs : FS)
    (h : convOk (parse_xml cfg all_tracks pls fs) = true) :
    (convState (parse_xml cfg all_tracks pls fs)).total_playlists
      = (pls.length : Int) - (pl_ignores.length : Int) - countFoldersNotIgnored pls
    ∧ (convState (parse_xml cfg all_tracks pls fs)).all_tracks_not_found.Nodup
    ∧ (convState (parse_xml cfg all_tracks pls fs)).all_tracks_in_pls.Nodup := by
  cases hr : runPlaylists cfg all_tracks (get_pl_folders pls)
      ⟨fs, [], [], [], [], (pls.length : Int) - (pl_ignores.length : Int)⟩ pls with
  | none => simp [parse_xml, hr, convOk] at h
  | some r =>
    cases r with
    | error e => simp [parse_xml, hr, convOk] at h
    | ok st' =>
      obtain ⟨t1, g1, g2⟩ := runPlaylists_inv pls
        ⟨fs, [], [], [], [], (pls.length : Int) - (pl_ignores.length : Int)⟩ st' hr
        List.nodup_nil List.nodup_nil
      simp only [parse_xml, hr, convState, writeFile]
      exact ⟨t1, g1, g2⟩

/-- Witness for C9 (amended) on the one-playlist scenario. -/
theorem C9_summary_counts_witness :
    (convState (parse_xml cfg3 table3 pls3 fs3)).total_playlists
      = (pls3.length : Int) - (pl_ignores.length : Int) - countFoldersNotIgnored pls3
    ∧ (convState (parse_xml cfg3 table3 pls3 fs3)).all_tracks_not_found.Nodup
    ∧ (convState (parse_xml cfg3 table3 pls3 fs3)).all_tracks_in_pls.Nodup :=
  C9_summary_counts cfg3 table3 pls3 fs3 rfl

/-- Modelled from the spec: a *real playlist* is a playlist entry that is not
a folder and not in the ignore list, and the claim asserts the second summary
denominator is the number of real playlists. -/
def specRealPlaylistCount (pls : List PL) : Int :=
  ((pls.filter (fun p => !p.isFolder && !(pl_ignores.contains p.name))).length : Int)

/-- Claim C9 (counterexample).  A document with one real playlist and none of
the four ignored auto-playlists: the code reports the denominator
`1 - 4 - 0 = -3`, not the number of real playlists (1) — `total_playlists`
is decremented by `len(pl_ignores)` unconditionally, whether or not those
names occur. -/
theorem C9_counterexample :
    (convState (parse_xml cfg3 table3 pls3 fs3)).total_playlists = -3
    ∧ specRealPlaylistCount pls3 = 1
    ∧ (convState (parse_xml cfg3 table3 pls3 fs3)).total_playlists
      ≠ specRealPlaylistCount pls3 :=
  ⟨rfl, rfl, by decide⟩

end ItXml2Pl
